import Mathlib

/-!
Verification of the document-verify service (`src/unnamed/part_000`, the
variant of the `/api/verify` handler that the specification's §9 adopts as
the de-duplicated core; `src/server.js` is an earlier near-duplicate).

The handler is embedded shallowly: the two external engines (Regula
document reader and face SDK) are modelled as components of an `Env`
record holding their responses for the current request, JavaScript `Date`
parsing and the start-of-day comparison are abstracted by a
`parseDay : String → Option Int` map to calendar-day ordinals together
with `today : Int` (the JS code compares `new Date(expiry)` against the
start of the current day, which is exactly a strict calendar-day
comparison; an invalid date compares false, modelled by `parseDay`
returning `none`), and floating-point similarity scores are modelled as
exact rationals (the claims' boundary values 75, 75.01, 75.004 have the
same observable behaviour in binary doubles as in ℚ).
-/

namespace DocVerify

/-- The document engine's overall status enum (`Result`: 0=OK, 1=WARN, 2=ERROR). -/
inductive OverallStatus where
  | ok
  | warn
  | error
deriving DecidableEq, Repr

/-- The portrait graphic field of the document-reader response:
`getValue(Source.VISUAL)` and `getValue(Source.RFID)`, each possibly null. -/
structure PortraitField where
  visual : Option (List Nat)
  rfid : Option (List Nat)
deriving DecidableEq, Repr

/-- The part of the raw document-reader response the handler reads:
`documentType()?.DocumentName`, the four text-field values obtained through
`getFieldVal` (null when the field is absent), `status.overallStatus`, and
the portrait graphic field (`images.getField(GraphicFieldType.PORTRAIT)`,
null when absent). -/
structure DocResponse where
  documentName : Option String
  number : Option String
  name : Option String
  dob : Option String
  expiry : Option String
  overallStatus : OverallStatus
  portrait : Option PortraitField
deriving DecidableEq, Repr

/-- An uploaded multipart file; only its byte content matters to the model. -/
structure UploadedFile where
  content : List Nat
deriving DecidableEq, Repr

/-- The request: the `passport` and `selfie` file fields, each possibly absent. -/
structure Request where
  passport : Option UploadedFile
  selfie : Option UploadedFile
deriving DecidableEq, Repr

/-- Per-request environment: what each external engine would answer if
called (`Except.error` is a thrown/rejected call, i.e. a communication
failure), plus the date environment. `faceEngine` carries the raw
similarity values (in [0,1]) of the match results list. -/
structure Env where
  docEngine : Except String DocResponse
  faceEngine : Except String (List ℚ)
  parseDay : String → Option Int
  today : Int

/-- Which external engines the handler actually called during the request. -/
structure Calls where
  docCalled : Bool
  faceCalled : Bool
deriving DecidableEq, Repr

/-- JavaScript truthiness of a nullable string: null/undefined and the
empty string are falsy. `truthyOpt` collapses a falsy value to `none`. -/
def truthyOpt : Option String → Option String
  | none => none
  | some s => if s == "" then none else some s

/-- Model of JavaScript `String.prototype.trim`: drop leading and trailing
whitespace. (Lean's built-in `String.trim` is defined through `Substring`
primitives that the kernel cannot unfold, so the equivalent list-level
computation is used; whitespace is modelled by `Char.isWhitespace`.) -/
def strTrim (s : String) : String :=
  ⟨((s.data.dropWhile Char.isWhitespace).reverse.dropWhile Char.isWhitespace).reverse⟩

/-- `let docType = docResponse.documentType()?.DocumentName;
if (!docType || docType.trim() === '') docType = 'UNKNOWN';`
(`!docType` catches both an absent name and the empty string; the `trim`
check catches whitespace-only names). -/
def normalizeDocType (documentName : Option String) : String :=
  match documentName with
  | none => "UNKNOWN"
  | some s => if s == "" || strTrim s == "" then "UNKNOWN" else s

/-- `const expiryDate = new Date(docData.expiry); ... if (expiryDate < today)`:
true iff the expiry string parses to a calendar day strictly before today
(an unparseable date yields `NaN` comparisons, i.e. false). -/
def isExpired (env : Env) (s : String) : Bool :=
  match env.parseDay s with
  | some d => decide (d < env.today)
  | none => false

def unknownTypeMsg : String := "Document type NOT recognized (Unknown document)"
def engineErrorMsg : String := "Critical Error: Document validation failed"
def expiredMsg (expiry : String) : String :=
  "Document is EXPIRED (Valid until: " ++ expiry ++ ")"
def noExpiryUnknownMsg : String := "No expiry date found on unknown document"
def noTextMsg : String := "No text data extracted (Image too blurry or empty)"

/-- The `docErrors` array built by the four sequential `push` blocks of the
handler (lines 90–113 of `part_000`): unknown-type rule, engine-error rule,
expiry rule (with its absent-expiry-on-unknown-document branch), and
no-text-extracted rule, in that order. -/
def docErrors (r : DocResponse) (env : Env) : List String :=
  let docType := normalizeDocType r.documentName
  let errs : List String := []
  let errs := if docType == "UNKNOWN" then errs ++ [unknownTypeMsg] else errs
  let errs := if r.overallStatus == OverallStatus.error then errs ++ [engineErrorMsg] else errs
  let errs :=
    match truthyOpt r.expiry with
    | some s => if isExpired env s then errs ++ [expiredMsg s] else errs
    | none => if docType == "UNKNOWN" then errs ++ [noExpiryUnknownMsg] else errs
  let errs := if (truthyOpt r.number).isNone && (truthyOpt r.name).isNone then
      errs ++ [noTextMsg]
    else errs
  errs

/-- `const isDocumentValid = docErrors.length === 0;` -/
def isDocumentValid (r : DocResponse) (env : Env) : Bool :=
  (docErrors r env).length == 0

/-- `docData`, echoed back to the caller as the report's `data` field. -/
structure DocData where
  number : Option String
  name : Option String
  dob : Option String
  expiry : Option String
  type : String
deriving DecidableEq, Repr

def mkDocData (r : DocResponse) : DocData :=
  { number := r.number
    name := r.name
    dob := r.dob
    expiry := r.expiry
    type := normalizeDocType r.documentName }

/-- The bytes behind `docFaceBase64`. In the source:
`portraitDataArray = portraitField.getValue(Source.VISUAL) || portraitField.getValue(Source.RFID);
if (portraitDataArray) docFaceBase64 = Buffer.from(portraitDataArray).toString('base64');`
followed by `if (!docFaceBase64)`. A byte array is always truthy in JS, but
base64 of an empty array is the empty string, which is falsy; so
`!docFaceBase64` holds iff the portrait field is absent, both sources are
null, or the selected source is an empty array. -/
def docFaceBase64 (r : DocResponse) : Option (List Nat) :=
  match r.portrait with
  | none => none
  | some pf =>
    match pf.visual.or pf.rfid with
    | none => none
    | some arr => if arr.isEmpty then none else some arr

/-- `const isFaceMatch = similarity > 75;` where
`similarity = results[0].similarity * 100`. -/
def isFaceMatch (similarity : ℚ) : Bool := similarity > 75

/-- `parseFloat(similarity.toFixed(2))`: the similarity rounded to two
decimal places for the report. -/
def round2 (q : ℚ) : ℚ := (round (q * 100) : ℤ) / 100

/-- The `faceMatch` object of the report: `{passed, similarity}` on the
normal path, `{passed, error}` on the missing-portrait path. -/
structure FaceCheck where
  passed : Bool
  similarity : Option ℚ
  error : Option String
deriving DecidableEq, Repr

/-- The `documentValidation` object of the report (`status` is omitted on
the missing-portrait path). -/
structure DocCheck where
  passed : Bool
  status : Option OverallStatus
  errors : List String
deriving DecidableEq, Repr

/-- The JSON body sent by `res.json` on a 200 response. -/
structure Report where
  success : Bool
  verificationStatus : String
  faceMatch : FaceCheck
  documentValidation : DocCheck
  data : DocData
deriving DecidableEq, Repr

/-- The handler's observable outcome: the 400 input rejection, a 200 JSON
report, or the 500 catch-all produced by a thrown error. -/
inductive VerifyResult where
  | badRequest (error : String)
  | report (r : Report)
  | serverError (error : String)
deriving DecidableEq, Repr

def missingFilesMsg : String := "Passport and selfie files are required"
def noFaceInDocMsg : String := "No face in document"
def noFaceFoundMsg : String := "No face found"
def noMatchResultsMsg : String := "No match results"

/-- The `/api/verify` handler of `part_000`, from the input-presence check
to the response, together with which external engines it called. -/
def verify (req : Request) (env : Env) : VerifyResult × Calls :=
  match req.passport, req.selfie with
  | none, _ => (.badRequest missingFilesMsg, ⟨false, false⟩)
  | some _, none => (.badRequest missingFilesMsg, ⟨false, false⟩)
  | some _passport, some _selfie =>
    match env.docEngine with
    | .error e => (.serverError e, ⟨true, false⟩)
    | .ok resp =>
      let docData := mkDocData resp
      let errs := docErrors resp env
      let docValid := isDocumentValid resp env
      match docFaceBase64 resp with
      | none =>
        (.report
          { success := false
            verificationStatus := "REJECTED"
            faceMatch := ⟨false, none, some noFaceInDocMsg⟩
            documentValidation := ⟨docValid, none, errs ++ [noFaceFoundMsg]⟩
            data := docData }, ⟨true, false⟩)
      | some _bytes =>
        match env.faceEngine with
        | .error e => (.serverError e, ⟨true, true⟩)
        | .ok [] => (.serverError noMatchResultsMsg, ⟨true, true⟩)
        | .ok (r0 :: _) =>
          let similarity := r0 * 100
          let faceOk := isFaceMatch similarity
          (.report
            { success := faceOk && docValid
              verificationStatus := if faceOk && docValid then "VERIFIED" else "REJECTED"
              faceMatch := ⟨faceOk, some (round2 similarity), none⟩
              documentValidation := ⟨docValid, some resp.overallStatus, errs⟩
              data := docData }, ⟨true, true⟩)

/-! ### Rule segments and decomposition

Each validation rule's individual contribution to `docErrors`, and the
lemma that `docErrors` is their concatenation in source order. These are
shared helpers for the claim theorems below. -/

/-- Contribution of the unknown-type rule. -/
def unknownTypeErrs (r : DocResponse) : List String :=
  if normalizeDocType r.documentName == "UNKNOWN" then [unknownTypeMsg] else []

/-- Contribution of the engine-error rule. -/
def engineErrorErrs (r : DocResponse) : List String :=
  if r.overallStatus == OverallStatus.error then [engineErrorMsg] else []

/-- Contribution of the expiry rule (including its absent-expiry-on-unknown
branch). -/
def expiryErrs (r : DocResponse) (env : Env) : List String :=
  match truthyOpt r.expiry with
  | some s => if isExpired env s then [expiredMsg s] else []
  | none =>
    if normalizeDocType r.documentName == "UNKNOWN" then [noExpiryUnknownMsg] else []

/-- Contribution of the no-text-extracted rule. -/
def noTextErrs (r : DocResponse) : List String :=
  if (truthyOpt r.number).isNone && (truthyOpt r.name).isNone then [noTextMsg] else []

lemma docErrors_decomp (r : DocResponse) (env : Env) :
    docErrors r env =
      unknownTypeErrs r ++ engineErrorErrs r ++ expiryErrs r env ++ noTextErrs r := by
  unfold docErrors unknownTypeErrs engineErrorErrs expiryErrs noTextErrs
  rcases truthyOpt r.expiry with _ | s <;>
    simp only [] <;>
    split <;> split <;> (try split) <;> (try split) <;> simp

/-! ### Concrete fixtures for witnesses

A fixed date environment (today = day 19723, i.e. 2024-01-01, the fixed
clock of the spec's scenario 4) and concrete document-reader responses. -/

def pdFix : String → Option Int := fun s =>
  if s == "2020-01-01" then some 18262
  else if s == "2099-01-01" then some 47119
  else none

def respPassport : DocResponse :=
  { documentName := some "PASSPORT"
    number := some "P123"
    name := some "JOHN DOE"
    dob := some "1990-01-01"
    expiry := some "2099-01-01"
    overallStatus := .ok
    portrait := some ⟨some [7], none⟩ }

def respUnknown : DocResponse :=
  { documentName := none
    number := none
    name := none
    dob := none
    expiry := none
    overallStatus := .error
    portrait := some ⟨some [7], none⟩ }

def respNoPortrait : DocResponse :=
  { respPassport with portrait := none }

def envFix : Env := ⟨.ok respPassport, .ok [], pdFix, 19723⟩

/-! ### Claim theorems -/

/-- C3: for every canonical document record, the rule set evaluates all
rules independently without short-circuiting — `docErrors` is exactly the
concatenation of the four rules' contributions in the fixed source order
(unknown-type, engine-error, expiry, no-text-extracted) — and every
applicable violation appears in the error list. -/
theorem docErrors_rule_order_complete (r : DocResponse) (env : Env) :
    docErrors r env =
      unknownTypeErrs r ++ engineErrorErrs r ++ expiryErrs r env ++ noTextErrs r ∧
    (normalizeDocType r.documentName = "UNKNOWN" → unknownTypeMsg ∈ docErrors r env) ∧
    (r.overallStatus = OverallStatus.error → engineErrorMsg ∈ docErrors r env) ∧
    (∀ s, truthyOpt r.expiry = some s → isExpired env s = true →
      expiredMsg s ∈ docErrors r env) ∧
    (truthyOpt r.expiry = none → normalizeDocType r.documentName = "UNKNOWN" →
      noExpiryUnknownMsg ∈ docErrors r env) ∧
    ((truthyOpt r.number).isNone = true → (truthyOpt r.name).isNone = true →
      noTextMsg ∈ docErrors r env) := by
  refine ⟨docErrors_decomp r env, ?_, ?_, ?_, ?_, ?_⟩ <;>
    rw [docErrors_decomp]
  · intro h
    simp [unknownTypeErrs, h]
  · intro h
    simp [engineErrorErrs, h]
  · intro s hs hexp
    simp [expiryErrs, hs, hexp]
  · intro hs hu
    simp [expiryErrs, hs, hu]
  · intro hn hm
    simp [noTextErrs, hn, hm]

/-- Witness for C3 at a concrete record: the unknown-type violation appears
in the collected error list of `respUnknown`. -/
theorem docErrors_rule_order_complete_witness :
    unknownTypeMsg ∈ docErrors respUnknown envFix :=
  (docErrors_rule_order_complete respUnknown envFix).2.1 (by decide)

/-- C4: the expiry rule. If the expiry field is present (truthy) and parses
to a calendar day strictly before today, the rule contributes exactly the
"document is EXPIRED" error carrying the expiry string; if the expiry is
absent and the document type is "UNKNOWN", it contributes the
no-expiry-on-unknown-document error; if the expiry is absent and the type
is recognized, it contributes nothing and `docErrors` consists of the
other three rules only. -/
theorem expiry_rule_cases (r : DocResponse) (env : Env) :
    (∀ s d, truthyOpt r.expiry = some s → env.parseDay s = some d → d < env.today →
      expiryErrs r env = [expiredMsg s] ∧ expiredMsg s ∈ docErrors r env) ∧
    (truthyOpt r.expiry = none → normalizeDocType r.documentName = "UNKNOWN" →
      expiryErrs r env = [noExpiryUnknownMsg] ∧ noExpiryUnknownMsg ∈ docErrors r env) ∧
    (truthyOpt r.expiry = none → normalizeDocType r.documentName ≠ "UNKNOWN" →
      expiryErrs r env = [] ∧
      docErrors r env = unknownTypeErrs r ++ engineErrorErrs r ++ noTextErrs r) := by
  refine ⟨?_, ?_, ?_⟩
  · intro s d hs hd hlt
    have hexp : isExpired env s = true := by simp [isExpired, hd, hlt]
    have h1 : expiryErrs r env = [expiredMsg s] := by simp [expiryErrs, hs, hexp]
    refine ⟨h1, ?_⟩
    rw [docErrors_decomp, h1]
    simp
  · intro hs hu
    have h1 : expiryErrs r env = [noExpiryUnknownMsg] := by simp [expiryErrs, hs, hu]
    refine ⟨h1, ?_⟩
    rw [docErrors_decomp, h1]
    simp
  · intro hs hu
    have h1 : expiryErrs r env = [] := by simp [expiryErrs, hs, hu]
    refine ⟨h1, ?_⟩
    rw [docErrors_decomp, h1]
    simp

/-- Witness for C4 at a concrete record: an expired document ("2020-01-01"
against a fixed today of 2024-01-01) receives the expired error carrying
its expiry date. -/
theorem expiry_rule_cases_witness :
    expiredMsg "2020-01-01" ∈
      docErrors { respPassport with expiry := some "2020-01-01" } envFix :=
  ((expiry_rule_cases { respPassport with expiry := some "2020-01-01" } envFix).1
    "2020-01-01" 18262 (by decide) (by decide) (by decide)).2

/-- C5: the face-match decision is a strict threshold at 75 — `isMatch`
holds iff the similarity percentage is strictly greater than 75; in
particular 75.00 is not a match and 75.01 is. -/
theorem isFaceMatch_strict_threshold :
    (∀ q : ℚ, isFaceMatch q = true ↔ q > 75) ∧
    isFaceMatch 75 = false ∧
    isFaceMatch (7501 / 100) = true := by
  refine ⟨fun q => ?_, ?_, ?_⟩
  · simp [isFaceMatch]
  · simp [isFaceMatch]
  · rw [isFaceMatch]
    norm_num

/-- Witness for C5: a similarity of 80 is a match, through the iff. -/
theorem isFaceMatch_strict_threshold_witness :
    isFaceMatch 80 = true :=
  (isFaceMatch_strict_threshold.1 80).mpr (by norm_num)

/-- C6: the validation outcome's `isDocumentValid` flag is true iff the
collected error list is empty, equivalently iff none of the four rules
fired. -/
theorem isDocumentValid_iff_no_rule_fired (r : DocResponse) (env : Env) :
    (isDocumentValid r env = true ↔ docErrors r env = []) ∧
    (isDocumentValid r env = true ↔
      unknownTypeErrs r = [] ∧ engineErrorErrs r = [] ∧
      expiryErrs r env = [] ∧ noTextErrs r = []) := by
  have h1 : isDocumentValid r env = true ↔ docErrors r env = [] := by
    simp [isDocumentValid, List.length_eq_zero]
  refine ⟨h1, h1.trans ?_⟩
  rw [docErrors_decomp]
  simp [List.append_eq_nil]

/-- Witness for C6: the clean passport record has an empty error list and
is reported valid. -/
theorem isDocumentValid_iff_no_rule_fired_witness :
    isDocumentValid respPassport envFix = true :=
  (isDocumentValid_iff_no_rule_fired respPassport envFix).1.mpr (by decide)

/-- All characters remaining after a `dropWhile p` satisfy `p` iff nothing
remained at all (the head of a non-empty remainder fails `p`). -/
lemma all_dropWhile_iff (p : Char → Bool) (l : List Char) :
    (∀ x ∈ l.dropWhile p, p x = true) ↔ ∀ x ∈ l, p x = true := by
  induction l with
  | nil => simp
  | cons a l ih =>
    by_cases h : p a = true
    · simp [List.dropWhile_cons, h, ih]
    · simp [List.dropWhile_cons, h]

/-- A string trims to the empty string iff it consists only of whitespace. -/
lemma strTrim_eq_empty_iff (s : String) :
    strTrim s = "" ↔ s.data.all Char.isWhitespace = true := by
  rw [String.ext_iff]
  show ((s.data.dropWhile Char.isWhitespace).reverse.dropWhile
      Char.isWhitespace).reverse = [] ↔ _
  rw [List.reverse_eq_nil_iff, List.dropWhile_eq_nil_iff]
  simp only [List.mem_reverse]
  rw [all_dropWhile_iff, List.all_eq_true]

/-- C9: documentType normalization — an absent classification, the empty
string, and a whitespace-only string all normalize to the sentinel
"UNKNOWN", while a non-blank classification is kept verbatim; the
canonical record's `type` is exactly this normalization. -/
theorem documentType_normalization :
    normalizeDocType none = "UNKNOWN" ∧
    (∀ s : String, s.data.all Char.isWhitespace = true →
      normalizeDocType (some s) = "UNKNOWN") ∧
    (∀ s : String, s.data.all Char.isWhitespace = false →
      normalizeDocType (some s) = s) ∧
    (∀ r : DocResponse, (mkDocData r).type = normalizeDocType r.documentName) := by
  refine ⟨rfl, fun s h => ?_, fun s h => ?_, fun r => rfl⟩
  · have ht : strTrim s = "" := (strTrim_eq_empty_iff s).mpr h
    simp [normalizeDocType, ht]
  · have h1 : strTrim s ≠ "" := by
      rw [Ne, strTrim_eq_empty_iff, h]
      simp
    have h2 : s ≠ "" := by
      intro hnil
      subst hnil
      simp at h
    simp [normalizeDocType, h1, h2]

/-- Witness for C9: a whitespace-only classification normalizes to
"UNKNOWN". -/
theorem documentType_normalization_witness :
    normalizeDocType (some "   ") = "UNKNOWN" :=
  documentType_normalization.2.1 "   " (by decide)

/-- Shape of the handler's result on the full success path: both files
present, document engine answered, a portrait was extracted, and the face
engine returned at least one result. -/
lemma verify_success_path (p s : UploadedFile) (resp : DocResponse)
    (r0 : ℚ) (rs : List ℚ) (pd : String → Option Int) (td : Int)
    (bs : List Nat) (hface : docFaceBase64 resp = some bs) :
    verify ⟨some p, some s⟩ ⟨.ok resp, .ok (r0 :: rs), pd, td⟩ =
      (.report
        { success := isFaceMatch (r0 * 100) &&
            isDocumentValid resp ⟨.ok resp, .ok (r0 :: rs), pd, td⟩
          verificationStatus :=
            if isFaceMatch (r0 * 100) &&
                isDocumentValid resp ⟨.ok resp, .ok (r0 :: rs), pd, td⟩ then
              "VERIFIED" else "REJECTED"
          faceMatch := ⟨isFaceMatch (r0 * 100), some (round2 (r0 * 100)), none⟩
          documentValidation :=
            ⟨isDocumentValid resp ⟨.ok resp, .ok (r0 :: rs), pd, td⟩,
              some resp.overallStatus,
              docErrors resp ⟨.ok resp, .ok (r0 :: rs), pd, td⟩⟩
          data := mkDocData resp }, ⟨true, true⟩) := by
  simp [verify, hface]

/-- C1: when the document portrait cannot be extracted (no portrait graphic
field, or neither a visual nor an RFID image source), the handler does not
call the face-matching engine and answers with a rejection report
(success false, status REJECTED) whose faceMatch error names the missing
portrait and whose documentValidation errors are all collected document
errors plus the "No face found" attribution. -/
theorem portrait_missing_rejects_without_face_call
    (p s : UploadedFile) (resp : DocResponse) (fe : Except String (List ℚ))
    (pd : String → Option Int) (td : Int)
    (hport : resp.portrait = none ∨
      ∃ pf, resp.portrait = some pf ∧ pf.visual = none ∧ pf.rfid = none) :
    verify ⟨some p, some s⟩ ⟨.ok resp, fe, pd, td⟩ =
      (.report
        { success := false
          verificationStatus := "REJECTED"
          faceMatch := ⟨false, none, some noFaceInDocMsg⟩
          documentValidation :=
            ⟨isDocumentValid resp ⟨.ok resp, fe, pd, td⟩, none,
              docErrors resp ⟨.ok resp, fe, pd, td⟩ ++ [noFaceFoundMsg]⟩
          data := mkDocData resp }, ⟨true, false⟩) := by
  have hface : docFaceBase64 resp = none := by
    rcases hport with h | ⟨pf, hpf, hv, hr⟩
    · simp [docFaceBase64, h]
    · simp [docFaceBase64, hpf, hv, hr, Option.or]
  simp [verify, hface]

/-- Witness for C1: a concrete portrait-less response is rejected with the
combined error list and the face engine is not called. -/
theorem portrait_missing_rejects_witness :
    verify ⟨some ⟨[9]⟩, some ⟨[8]⟩⟩ ⟨.ok respNoPortrait, .ok [], pdFix, 19723⟩ =
      (.report
        { success := false
          verificationStatus := "REJECTED"
          faceMatch := ⟨false, none, some noFaceInDocMsg⟩
          documentValidation :=
            ⟨isDocumentValid respNoPortrait ⟨.ok respNoPortrait, .ok [], pdFix, 19723⟩,
              none,
              docErrors respNoPortrait ⟨.ok respNoPortrait, .ok [], pdFix, 19723⟩ ++
                [noFaceFoundMsg]⟩
          data := mkDocData respNoPortrait }, ⟨true, false⟩) :=
  portrait_missing_rejects_without_face_call ⟨[9]⟩ ⟨[8]⟩ respNoPortrait (.ok [])
    pdFix 19723 (Or.inl rfl)

/-- C2: when both sub-checks run to completion, the report's success flag
is exactly documentCheck-valid AND faceCheck-match, the status is
"VERIFIED" iff success and "REJECTED" iff not, and a success is never
reported with a failed sub-check. -/
theorem overall_success_conjunction
    (p s : UploadedFile) (resp : DocResponse) (r0 : ℚ) (rs : List ℚ)
    (pd : String → Option Int) (td : Int)
    (bs : List Nat) (hface : docFaceBase64 resp = some bs) :
    ∃ rep : Report,
      verify ⟨some p, some s⟩ ⟨.ok resp, .ok (r0 :: rs), pd, td⟩ =
        (.report rep, ⟨true, true⟩) ∧
      rep.success = (isDocumentValid resp ⟨.ok resp, .ok (r0 :: rs), pd, td⟩ &&
        isFaceMatch (r0 * 100)) ∧
      (rep.verificationStatus = "VERIFIED" ↔ rep.success = true) ∧
      (rep.verificationStatus = "REJECTED" ↔ rep.success = false) ∧
      (rep.success = true →
        rep.documentValidation.passed = true ∧ rep.faceMatch.passed = true) := by
  refine ⟨_, verify_success_path p s resp r0 rs pd td bs hface, ?_, ?_, ?_, ?_⟩ <;>
    generalize isFaceMatch (r0 * 100) = a <;>
    generalize isDocumentValid resp ⟨.ok resp, .ok (r0 :: rs), pd, td⟩ = b <;>
    cases a <;> cases b <;> simp

/-- Witness for C2: a clean passport with similarity 92.3 yields a report
whose success flag is the conjunction of the two passed sub-checks. -/
theorem overall_success_conjunction_witness :
    ∃ rep : Report,
      verify ⟨some ⟨[9]⟩, some ⟨[8]⟩⟩
          ⟨.ok respPassport, .ok [(923 / 1000 : ℚ)], pdFix, 19723⟩ =
        (.report rep, ⟨true, true⟩) ∧
      rep.success =
        (isDocumentValid respPassport
            ⟨.ok respPassport, .ok [(923 / 1000 : ℚ)], pdFix, 19723⟩ &&
          isFaceMatch ((923 / 1000 : ℚ) * 100)) ∧
      (rep.verificationStatus = "VERIFIED" ↔ rep.success = true) ∧
      (rep.verificationStatus = "REJECTED" ↔ rep.success = false) ∧
      (rep.success = true →
        rep.documentValidation.passed = true ∧ rep.faceMatch.passed = true) :=
  overall_success_conjunction ⟨[9]⟩ ⟨[8]⟩ respPassport (923 / 1000) [] pdFix 19723
    [7] (by decide)

/-- C7: zero match results from the face engine yield the fixed
"No match results" failure: not a report (so no spurious similarity-0
match), unequal to any server failure with a different message, while a
face-engine communication failure surfaces as a server failure carrying
that engine's own message. -/
theorem zero_results_distinct_failure
    (p s : UploadedFile) (resp : DocResponse)
    (pd : String → Option Int) (td : Int)
    (bs : List Nat) (hface : docFaceBase64 resp = some bs) :
    (verify ⟨some p, some s⟩ ⟨.ok resp, .ok [], pd, td⟩).1 =
      .serverError noMatchResultsMsg ∧
    (∀ rep : Report,
      (verify ⟨some p, some s⟩ ⟨.ok resp, .ok [], pd, td⟩).1 ≠ .report rep) ∧
    (∀ m : String, m ≠ noMatchResultsMsg →
      (verify ⟨some p, some s⟩ ⟨.ok resp, .ok [], pd, td⟩).1 ≠ .serverError m) ∧
    (∀ m : String,
      (verify ⟨some p, some s⟩ ⟨.ok resp, .error m, pd, td⟩).1 = .serverError m) := by
  have h0 : (verify ⟨some p, some s⟩ ⟨.ok resp, .ok [], pd, td⟩).1 =
      .serverError noMatchResultsMsg := by
    simp [verify, hface]
  refine ⟨h0, fun rep => ?_, fun m hm => ?_, fun m => ?_⟩
  · rw [h0]
    intro hcontra
    exact VerifyResult.noConfusion hcontra
  · rw [h0]
    intro hcontra
    injection hcontra with h
    exact hm h.symm
  · simp [verify, hface]

/-- Witness for C7: the concrete zero-results run ends in the fixed
"No match results" server failure. -/
theorem zero_results_distinct_failure_witness :
    (verify ⟨some ⟨[9]⟩, some ⟨[8]⟩⟩ ⟨.ok respPassport, .ok [], pdFix, 19723⟩).1 =
      .serverError noMatchResultsMsg :=
  (zero_results_distinct_failure ⟨[9]⟩ ⟨[8]⟩ respPassport pdFix 19723 [7]
    (by decide)).1

/-- C8 counterexample: a request whose passport image file is present but
empty is not rejected by the input check — the document engine is called
anyway. -/
theorem empty_image_still_calls_doc_engine :
    (verify ⟨some ⟨[]⟩, some ⟨[1]⟩⟩ envFix).2.docCalled = true ∧
    (verify ⟨some ⟨[]⟩, some ⟨[1]⟩⟩ envFix).1 ≠ .badRequest missingFilesMsg := by
  decide

/-- C8 (amended): when either file field is missing from the request, the
handler fails fast with the fixed input error and calls neither engine. -/
theorem missing_file_fails_fast (req : Request) (env : Env)
    (h : req.passport = none ∨ req.selfie = none) :
    verify req env = (.badRequest missingFilesMsg, ⟨false, false⟩) := by
  obtain ⟨pp, ss⟩ := req
  rcases h with h | h
  · simp only at h
    subst h
    rfl
  · simp only at h
    subst h
    cases pp <;> rfl

/-- Witness for the amended C8: a request with no passport field is
rejected with the input error and no engine call. -/
theorem missing_file_fails_fast_witness :
    verify ⟨none, some ⟨[1]⟩⟩ envFix = (.badRequest missingFilesMsg, ⟨false, false⟩) :=
  missing_file_fails_fast ⟨none, some ⟨[1]⟩⟩ envFix (Or.inl rfl)

/-- C10: the face-match decision is taken on the unrounded similarity while
the report carries the two-decimal rounding of it; for the engine
similarity 0.75004 the decision is a match (75.004 > 75) yet the reported
similarity is exactly 75.00, which itself would fail the strict threshold —
the reported score and the >75 rule can appear inconsistent. -/
theorem decision_unrounded_report_rounded
    (p s : UploadedFile) (resp : DocResponse) (r0 : ℚ) (rs : List ℚ)
    (pd : String → Option Int) (td : Int)
    (bs : List Nat) (hface : docFaceBase64 resp = some bs) :
    (∃ rep : Report,
      (verify ⟨some p, some s⟩ ⟨.ok resp, .ok (r0 :: rs), pd, td⟩).1 =
        .report rep ∧
      rep.faceMatch.passed = isFaceMatch (r0 * 100) ∧
      rep.faceMatch.similarity = some (round2 (r0 * 100))) ∧
    isFaceMatch ((75004 / 100000 : ℚ) * 100) = true ∧
    round2 ((75004 / 100000 : ℚ) * 100) = 75 ∧
    isFaceMatch (round2 ((75004 / 100000 : ℚ) * 100)) = false := by
  have h3 : round2 ((75004 / 100000 : ℚ) * 100) = 75 := by
    rw [round2]
    norm_num [round_eq]
  refine ⟨⟨_, by rw [verify_success_path p s resp r0 rs pd td bs hface], rfl, rfl⟩,
    ?_, h3, ?_⟩
  · simp only [isFaceMatch]
    norm_num
  · rw [h3]
    simp only [isFaceMatch]
    norm_num

/-- Witness for C10: the concrete run at raw similarity 0.75004 produces a
report whose passed flag uses the unrounded score and whose similarity is
the rounded score. -/
theorem decision_unrounded_report_rounded_witness :
    ∃ rep : Report,
      (verify ⟨some ⟨[9]⟩, some ⟨[8]⟩⟩
          ⟨.ok respPassport, .ok [(75004 / 100000 : ℚ)], pdFix, 19723⟩).1 =
        .report rep ∧
      rep.faceMatch.passed = isFaceMatch ((75004 / 100000 : ℚ) * 100) ∧
      rep.faceMatch.similarity = some (round2 ((75004 / 100000 : ℚ) * 100)) :=
  (decision_unrounded_report_rounded ⟨[9]⟩ ⟨[8]⟩ respPassport (75004 / 100000) []
    pdFix 19723 [7] (by decide)).1

end DocVerify
